import Mathlib

/-!
Verification of the soonscan terminal blockchain explorer (Rust sources
`src/main.rs`, `src/app.rs`, `src/api.rs`) against its natural-language
specification.  The Rust code is shallowly embedded: pure functions become
Lean functions, the stateful `App` methods become explicit state-passing
functions, and every network call is represented by an oracle argument
describing the outcome the remote endpoint would produce.  Rust byte-string
slicing is modelled on character lists (all strings involved are ASCII).
-/

namespace Soonscan

/-! ## JSON values (model of `serde_json::Value`) -/

inductive Json where
  | null
  | bool (b : Bool)
  | num (n : Int)
  | str (s : String)
  | arr (elems : List Json)
  | obj (fields : List (String × Json))

/-- `Value::get(key)` on an object (first binding wins, as in a JSON map). -/
def Json.get : Json → String → Option Json
  | .obj fields, key => fields.lookup key
  | _, _ => none

/-- `Value::as_i64`. -/
def Json.asI64 : Json → Option Int
  | .num n => if -(2 ^ 63) ≤ n ∧ n < 2 ^ 63 then some n else none
  | _ => none

/-- `Value::as_u64` (returned as the underlying `Nat`). -/
def Json.asU64 : Json → Option Nat
  | .num n => if 0 ≤ n ∧ n < 2 ^ 64 then some n.toNat else none
  | _ => none

/-- `Value::as_str`. -/
def Json.asStr : Json → Option String
  | .str s => some s
  | _ => none

/-- `Value::as_bool`. -/
def Json.asBool : Json → Option Bool
  | .bool b => some b
  | _ => none

/-! ## Base58 parsing (model of `bs58::decode`, used by
`Pubkey::from_str` and `Signature::from_str` in `app.rs::fetch_data`) -/

/-- Position of a character in the Bitcoin base58 alphabet. -/
def base58Index (c : Char) : Option Nat :=
  "123456789ABCDEFGHJKLMNPQRSTUVWXYZabcdefghijkmnopqrstuvwxyz".toList.findIdx?
    (fun d => d = c)

/-- The big-endian numeric value of a base58 string; `none` on any
character outside the alphabet. -/
def b58DecodeNum (cs : List Char) : Option Nat :=
  cs.foldlM (fun acc c => (base58Index c).map (fun d => acc * 58 + d)) 0

/-- Leading `'1'` digits, each of which decodes to one leading zero byte. -/
def leadingOnes : List Char → Nat
  | '1' :: cs => leadingOnes cs + 1
  | _ => 0

/-- Number of bytes in the minimal big-endian encoding of `n`
(bounded recursion on a fuel argument; at most `log256 n + 1` live steps). -/
def byteLenAux : Nat → Nat → Nat
  | 0, _ => 0
  | fuel + 1, n => if n = 0 then 0 else byteLenAux fuel (n / 256) + 1

def byteLen (n : Nat) : Nat := byteLenAux n n

/-- Length in bytes of the base58 decoding of `s` (`none` if `s` is not
valid base58): one zero byte per leading `'1'`, then the minimal
big-endian bytes of the value. -/
def b58DecodedByteLen (s : String) : Option Nat :=
  (b58DecodeNum s.toList).map (fun v => leadingOnes s.toList + byteLen v)

/-- `Pubkey::from_str` succeeds: at most 44 characters and the base58
decoding is exactly 32 bytes. -/
def pubkeyOk (s : String) : Bool :=
  decide (s.length ≤ 44) &&
    (match b58DecodedByteLen s with
     | some l => l == 32
     | none => false)

/-- `Signature::from_str` succeeds: at most 88 characters and the base58
decoding is exactly 64 bytes. -/
def signatureOk (s : String) : Bool :=
  decide (s.length ≤ 88) &&
    (match b58DecodedByteLen s with
     | some l => l == 64
     | none => false)

/-- Query kinds, as decided by the `if let Ok(..) = Pubkey::from_str /
Signature::from_str` chain of `app.rs::fetch_data`. -/
inductive QueryKind where
  | accountAddress
  | transactionSignature
  | invalid
deriving DecidableEq, Repr

/-- The classification performed by `app.rs::fetch_data` (lines 356-442):
try the address parse, then the signature parse, otherwise the query is
reported as neither. -/
def classify (s : String) : QueryKind :=
  if pubkeyOk s then .accountAddress
  else if signatureOk s then .transactionSignature
  else .invalid

/-- `api.rs::fetch_data` (lines 2-6) chooses the RPC method purely by
string length: `44` means `getAccountInfo`, anything else `getTransaction`. -/
def api_method (query : String) : String :=
  if query.length == 44 then "getAccountInfo" else "getTransaction"

/-! ## Networks and UI state (`app.rs` lines 29-108) -/

def DEVNET_RPC : String := "https://rpc.devnet.soo.network/rpc"

def TESTNET_RPC : String := "https://rpc.testnet.soo.network/rpc"

inductive RpcNetwork where
  | devnet
  | testnet
deriving DecidableEq, Repr

def RpcNetwork.get_url : RpcNetwork → String
  | .devnet => DEVNET_RPC
  | .testnet => TESTNET_RPC

/-- `App::toggle_rpc_network` (app.rs lines 98-104). -/
def toggle_rpc_network : RpcNetwork → RpcNetwork
  | .devnet => .testnet
  | .testnet => .devnet

inductive InputMode where
  | normal
  | editing
deriving DecidableEq, Repr

/-- The `App` struct of `app.rs` (lines 57-69); the HTTP client handle is
not part of the observable state. -/
structure App where
  query : String
  input_mode : InputMode
  slot_info : Option Int
  transaction_info : Option Int
  supply_info : Option Json
  json_response : Option Json
  address_sign : Option Json
  exit : Bool
  show_popup : Bool
  current_rpc_network : RpcNetwork

/-- `impl Default for App` (app.rs lines 78-94). -/
def App.default : App :=
  { query := ""
    input_mode := .normal
    slot_info := none
    transaction_info := none
    supply_info := none
    json_response := none
    address_sign := none
    exit := false
    show_popup := false
    current_rpc_network := .devnet }

/-! ## Keyboard events and `handle_events` (app.rs lines 280-348) -/

inductive KeyCode where
  | char (c : Char)
  | esc
  | enter
  | backspace
  | other
deriving DecidableEq, Repr

structure KeyEvent where
  code : KeyCode
  ctrl : Bool

/-- One key-press step of `App::handle_events`, with the Rust `match` arms
tried in source order.  `clip` is the clipboard contents offered by
`cli_clipboard::get_contents` (`none` for a failed read).  The second
component records whether the arm ran `fetch_data` (the Enter submission). -/
def handle_key (st : App) (ev : KeyEvent) (clip : Option String) : App × Bool :=
  if ev.code = .char 'q' then
    ({ st with exit := true }, false)
  else if ev.code = .char 'e' then
    (if st.input_mode = .normal then { st with input_mode := .editing } else st, false)
  else if ev.code = .char 'n' then
    ({ st with current_rpc_network := toggle_rpc_network st.current_rpc_network }, false)
  else if ev.code = .esc then
    ({ st with input_mode := .normal }, false)
  else if ev.code = .enter then
    (if st.input_mode = .editing then
       ({ st with input_mode := .normal }, !(st.query == ""))
     else (st, false))
  else if ev.code = .char '?' then
    ({ st with show_popup := !st.show_popup }, false)
  else if ev.code = .char 'v' then
    (if st.input_mode = .editing ∧ ev.ctrl = true then
       (match clip with
        | some content => { st with query := st.query ++ content }
        | none => st)
     else if st.input_mode = .editing then
       { st with query := st.query.push 'v' }
     else st, false)
  else
    match ev.code with
    | .char c => (if st.input_mode = .editing then { st with query := st.query.push c } else st, false)
    | .backspace => (if st.input_mode = .editing then { st with query := st.query.dropRight 1 } else st, false)
    | _ => (st, false)

/-! ## Dashboard load (`App::fetch_initial_blockchain_data`, app.rs lines 111-178)

Each of the three JSON-RPC calls can end four ways, matching the Rust
control flow: `sendErr` (the `send().await?` fails and the whole function
returns `Err`), `httpFail` (non-2xx status: the field is left untouched and
the next call still runs), `decodeErr` (`response.json().await?` fails and
the function returns `Err`), or `ok body`.  Mutations made before an abort
persist, because the Rust method mutates `&mut self` in place. -/

inductive RpcOutcome where
  | sendErr
  | httpFail
  | decodeErr
  | ok (body : Json)

/-- One `post(..).send().await?` / `status().is_success()` /
`response.json().await?` block; returns the (possibly updated) state and
whether execution continues past this call. -/
def callStep (st : App) (r : RpcOutcome) (upd : Json → App → App) : App × Bool :=
  match r with
  | .sendErr => (st, false)
  | .httpFail => (st, true)
  | .decodeErr => (st, false)
  | .ok body => (upd body st, true)

/-- `fetch_initial_blockchain_data`: `getSlot`, then `getSupply`, then
`getTransactionCount`, in that order; the Bool is `true` when the function
returned `Ok(())`. -/
def fetch_initial_blockchain_data (st : App) (slotR supplyR txR : RpcOutcome) :
    App × Bool :=
  let s1 := callStep st slotR
    (fun body s => { s with slot_info := (body.get "result").bind Json.asI64 })
  if s1.2 = false then (s1.1, false) else
  let s2 := callStep s1.1 supplyR
    (fun body s => { s with supply_info := body.get "result" })
  if s2.2 = false then (s2.1, false) else
  let s3 := callStep s2.1 txR
    (fun body s => { s with transaction_info := (body.get "result").bind Json.asI64 })
  (s3.1, s3.2)

/-- Outcomes that do not abort `fetch_initial_blockchain_data` through `?`:
a non-2xx status or a successfully decoded body. -/
def NonAbort : RpcOutcome → Prop
  | .sendErr => False
  | .decodeErr => False
  | .httpFail => True
  | .ok _ => True

/-- The value a field holds after its own call, for a non-aborting outcome:
unchanged on an HTTP failure, re-read from `result` on success. -/
def i64Field (prev : Option Int) : RpcOutcome → Option Int
  | .ok body => (body.get "result").bind Json.asI64
  | _ => prev

def supplyField (prev : Option Json) : RpcOutcome → Option Json
  | .ok body => body.get "result"
  | _ => prev

/-! ## Query submission (`App::fetch_data`, app.rs lines 350-445) -/

/-- `solana_client` call results; `err` covers every `Err(_)` the client
can produce (transport failure, RPC error envelope, missing entity). -/
inductive ClientResult (α : Type) where
  | ok (val : α)
  | err

/-- The fields of `solana_sdk::account::Account` read by `fetch_data`. -/
structure Account where
  lamports : Nat
  owner : String
  dataLen : Nat
  executable : Bool

/-- `meta` fields of a confirmed transaction read by `fetch_data`
(`status` is the `format!("{:?}", m.status)` string). -/
structure TxMeta where
  status : String
  err : Option Json
  fee : Nat
  pre_balances : List Nat
  post_balances : List Nat
  log_messages : Option (List String)
  compute_units_consumed : Option Nat

inductive UiMessage where
  | raw (account_keys : List String) (recent_blockhash : String) (instructions : List Json)
  | otherMessage

inductive EncodedTx where
  | jsonTx (signatures : List String) (message : UiMessage)
  | otherTx

structure TxResponse where
  slot : Nat
  block_time : Option Int
  meta : Option TxMeta
  transaction : EncodedTx

/-- The `serde_json::json!` object built in the account branch of
`fetch_data` (app.rs lines 363-368). -/
def accountJson (a : Account) : Json :=
  .obj [("lamports", .num a.lamports),
        ("owner", .str a.owner),
        ("space", .num a.dataLen),
        ("executable", .bool a.executable)]

def optNumJson : Option Int → Json
  | some n => .num n
  | none => .null

/-- The `serde_json::json!` object built in the transaction branch of
`fetch_data` (app.rs lines 394-431). -/
def txJson (t : TxResponse) : Json :=
  .obj [("slot", .num t.slot),
        ("blockTime", optNumJson t.block_time),
        ("meta", .obj
          [("status", match t.meta with | some m => .str m.status | none => .null),
           ("err", match t.meta.bind (fun m => m.err) with | some e => e | none => .null),
           ("fee", .num (match t.meta with | some m => m.fee | none => 0)),
           ("preBalances", match t.meta with
             | some m => .arr (m.pre_balances.map (fun n => .num n))
             | none => .null),
           ("postBalances", match t.meta with
             | some m => .arr (m.post_balances.map (fun n => .num n))
             | none => .null),
           ("signatures", .arr (match t.transaction with
             | .jsonTx sigs _ => sigs.map (fun s => .str s)
             | .otherTx => [])),
           ("accountKeys", .arr (match t.transaction with
             | .jsonTx _ (.raw keys _ _) => keys.map (fun s => .str s)
             | _ => [])),
           ("recentBlockhash", .str (match t.transaction with
             | .jsonTx _ (.raw _ bh _) => bh
             | _ => "")),
           ("instructions", .arr (match t.transaction with
             | .jsonTx _ (.raw _ _ ins) => ins
             | _ => [])),
           ("logMessages", match t.meta.bind (fun m => m.log_messages) with
             | some ls => .arr (ls.map (fun s => .str s))
             | none => .null),
           ("computeUnitsConsumed", match t.meta.bind (fun m => m.compute_units_consumed) with
             | some c => .num c
             | none => .null)])]

/-- The responses the node would give to each of the three possible calls
of one `fetch_data` run.  `signatures` holds the already-serialized array
elements of `get_signatures_for_address`. -/
structure RpcOracle where
  account : ClientResult Account
  signatures : ClientResult (List Json)
  transaction : ClientResult TxResponse

/-- Which client calls `fetch_data` issued, and the endpoint its
`RpcClient` was built with (`let url = DEVNET_RPC;`, app.rs line 352). -/
structure FetchCalls where
  url : String
  get_account : Bool
  get_signatures : Bool
  get_transaction : Bool

/-- `App::fetch_data`: parse the query as a pubkey, else as a signature;
account success triggers the dependent signatures fetch; every failure
clears the corresponding response fields. -/
def fetch_data (st : App) (o : RpcOracle) : App × FetchCalls :=
  if pubkeyOk st.query then
    match o.account with
    | .ok a =>
      let st1 := { st with json_response := some (accountJson a) }
      match o.signatures with
      | .ok sigs =>
        ({ st1 with address_sign := some (.arr sigs) },
         { url := DEVNET_RPC, get_account := true, get_signatures := true, get_transaction := false })
      | .err =>
        ({ st1 with address_sign := none },
         { url := DEVNET_RPC, get_account := true, get_signatures := true, get_transaction := false })
    | .err =>
      ({ st with json_response := none, address_sign := none },
       { url := DEVNET_RPC, get_account := true, get_signatures := false, get_transaction := false })
  else if signatureOk st.query then
    match o.transaction with
    | .ok t =>
      ({ st with json_response := some (txJson t) },
       { url := DEVNET_RPC, get_account := false, get_signatures := false, get_transaction := true })
    | .err =>
      ({ st with json_response := none },
       { url := DEVNET_RPC, get_account := false, get_signatures := false, get_transaction := true })
  else
    ({ st with json_response := none },
     { url := DEVNET_RPC, get_account := false, get_signatures := false, get_transaction := false })

/-! ## Number formatting (`App::format_longnumber`, app.rs lines 452-471)

The Rust loop writes, for each enumerated character of
`number.abs().to_string()`, a comma when `i > 0 && (len - i) % 3 == 0`
and then the character. -/

def commaChars (len : Nat) : Nat → List Char → List Char
  | _, [] => []
  | i, c :: rest =>
    (if 0 < i ∧ (len - i) % 3 = 0 then [','] else []) ++ c :: commaChars len (i + 1) rest

/-- Rust `i64::abs` on the i64 range: exact negation everywhere except
`i64::MIN`, whose negation is not representable.  There the release
profile wraps (`abs` returns `i64::MIN` itself, so `to_string` keeps the
minus sign); the debug profile panics instead, so on no profile does
`i64::MIN` produce an unsigned digit string.  The wrapping (release)
result is the one modelled. -/
def i64Abs (n : Int) : Int :=
  if n = -9223372036854775808 then n else (n.natAbs : Int)

def format_longnumber (number : Int) : String :=
  let number_str := toString (i64Abs number)
  let len := number_str.length
  let formatted := String.mk (commaChars len 0 number_str.toList)
  if number < 0 then "-" ++ formatted else formatted

/-- Modelled from the spec: digits grouped in threes from the right with
comma separators (used only to compare `format_longnumber` against the
spec's wording). -/
def groupThrees (s : List Char) : List Char :=
  if _h : s.length ≤ 3 then s
  else groupThrees (s.take (s.length - 3)) ++ ',' :: s.drop (s.length - 3)
termination_by s.length
decreasing_by
  simp only [List.length_take]
  omega

/-! ## Rendering (`impl Widget for &App`, app.rs lines 474-779)

The renderer is modelled as the list of table rows, each row a list of
cells.  Cells whose Rust text comes from a floating-point `format!` or
from `chrono` keep their exact inputs in a dedicated constructor instead
of a string.  The two direct byte-slicings (`&signature[0..23]` and
`&self.query[0..24]`) make rendering fallible: an out-of-range slice is a
Rust panic, modelled as `Except.error`. -/

inductive Cell where
  | text (s : String)
  | sol (lamports : Nat)
  | pct (circulating total : Int)
  | timestamp (t : Int)
deriving DecidableEq, Repr

inductive RenderErr where
  | sliceOutOfRange
deriving DecidableEq, Repr

/-- Dashboard rows (empty query), app.rs lines 490-545. -/
def dashRows (st : App) : List (List Cell) :=
  (match st.slot_info with
   | some slot =>
     [[Cell.text "Network", Cell.text "SoonScan Devnet"],
      [Cell.text "Slot:", Cell.text (format_longnumber slot)]]
   | none => [])
  ++ (match st.supply_info with
      | some supply =>
        (match supply.get "value" with
         | some v =>
           [[Cell.text "Circulating Supply:",
             Cell.text (format_longnumber (((v.get "circulating").bind Json.asI64).getD 0)
               ++ " / " ++ format_longnumber (((v.get "total").bind Json.asI64).getD 0))],
            [Cell.text "Circulating Percentage:",
             Cell.pct (((v.get "circulating").bind Json.asI64).getD 0)
               (((v.get "total").bind Json.asI64).getD 0)]]
         | none => [])
      | none => [])
  ++ (match st.transaction_info with
      | some t => [[Cell.text "Transaction count:", Cell.text (format_longnumber t)]]
      | none => [])

def ownerDisplay (owner : String) : String :=
  if owner = "11111111111111111111111111111111" then "System Program" else owner

/-- Account-info rows, app.rs lines 549-614. -/
def accountRows (j : Json) : List (List Cell) :=
  [[Cell.text "Type:", Cell.text "Account Info"],
   [Cell.text "Balance (SOL):", Cell.sol (((j.get "lamports").bind Json.asU64).getD 0)],
   [Cell.text "Allocated Data Size:",
    Cell.text (toString (((j.get "space").bind Json.asU64).getD 0) ++ " byte(s)")],
   [Cell.text "Assigned Program Id:",
    Cell.text ((((j.get "owner").bind Json.asStr).map ownerDisplay).getD "N/A")],
   [Cell.text "Executable:",
    Cell.text (if ((j.get "executable").bind Json.asBool).getD false then "Yes" else "No")]]

/-- The signature string of a history entry (app.rs lines 647-650). -/
def sigStringOf (info : Json) : String :=
  ((info.get "signature").bind Json.asStr).getD "N/A"

/-- One transaction-history row (app.rs lines 645-681).  The cell text
`format!("{}...", &signature[0..23])` slices the first 23 bytes directly
and panics when the string is shorter. -/
def sigHistoryRow (info : Json) : Except RenderErr (List Cell) :=
  let signature := sigStringOf info
  if signature.length < 23 then .error .sliceOutOfRange
  else
    .ok [Cell.text (signature.take 23 ++ "..."),
         Cell.text (format_longnumber (((info.get "slot").bind Json.asU64).getD 0)),
         (match (info.get "blockTime").bind Json.asU64 with
          | some t => Cell.timestamp t
          | none => Cell.text "N/A"),
         Cell.text (((info.get "confirmationStatus").bind Json.asStr).getD "Unknown")]

/-- Transaction-history block (app.rs lines 617-684): header rows plus one
row per entry, rendered only when `address_sign` holds an array. -/
def historyRows (st : App) : Except RenderErr (List (List Cell)) :=
  match st.address_sign with
  | some aj =>
    (match aj with
     | .arr entries =>
       (match entries.mapM sigHistoryRow with
        | .ok entryRows =>
          .ok ([[Cell.text " "],
                [Cell.text "Transaction History"],
                [Cell.text " "],
                [Cell.text "Transaction", Cell.text "Block", Cell.text "Timestamp", Cell.text "Result"]]
               ++ entryRows)
        | .error e => .error e)
     | _ => .ok [])
  | none => .ok []

def statusDisplay (j : Json) : String :=
  match ((j.get "meta").bind (fun m => m.get "status")).bind Json.asStr with
  | some s => if s = "Ok(())" then "SUCCESS" else "Err"
  | none => "Unknown"

/-- Transaction-info rows (app.rs lines 687-758); `sigCell` is the
already-sliced `&self.query[0..24]` cell. -/
def txRows (j : Json) (sigCell : Cell) : List (List Cell) :=
  [[Cell.text "Type:", Cell.text "Transaction Info"],
   [Cell.text "Slot:",
    Cell.text ((((j.get "slot").bind Json.asU64).map (fun s => format_longnumber s)).getD "N/A")],
   [Cell.text "Block Time:",
    (match (j.get "blockTime").bind Json.asU64 with
     | some t => Cell.timestamp t
     | none => Cell.text "N/A")],
   [Cell.text "Fee (SOL):",
    (match ((j.get "meta").bind (fun m => m.get "fee")).bind Json.asU64 with
     | some f => Cell.sol f
     | none => Cell.text "N/A")],
   [Cell.text "Status:", Cell.text (statusDisplay j)],
   [Cell.text "Signatures:", sigCell]]

/-- The full table body built by `render` (app.rs lines 487-772). -/
def render_rows (st : App) : Except RenderErr (List (List Cell)) :=
  if st.query = "" then
    .ok (dashRows st)
  else
    match st.json_response with
    | some j =>
      (match j with
       | .obj fields =>
         if (Json.get (.obj fields) "lamports").isSome then
           (match historyRows st with
            | .ok hist => .ok (accountRows (.obj fields) ++ hist)
            | .error e => .error e)
         else if (Json.get (.obj fields) "slot").isSome then
           if st.query.length < 24 then .error .sliceOutOfRange
           else .ok (txRows (.obj fields) (Cell.text (st.query.take 24 ++ "...")))
         else
           .ok [[Cell.text "Error:", Cell.text "Unsupported response type."]]
       | _ => .ok [])
    | none => .ok [[Cell.text "Status:", Cell.text "Loading..."]]

/-! ## Lock discipline of `handle_events` (app.rs lines 280-348)

Every `match` arm of `handle_events` begins with `app.lock().await` and
drops the guard at the end of the arm's scope; the Enter arm runs
`app.fetch_data().await` - a network round-trip - inside that scope.
The traces below transcribe those scopes as primitive operations. -/

inductive PrimOp where
  | lockAcquire
  | lockRelease
  | networkRoundTrip
  | stateAccess
deriving DecidableEq, Repr

/-- The primitive-operation trace of the `handle_events` arm selected by
`ev`, given the input mode and whether the query buffer is empty. -/
def handlerOps (mode : InputMode) (queryEmpty : Bool) (ev : KeyEvent) : List PrimOp :=
  if ev.code = .enter then
    [.lockAcquire, .stateAccess]
      ++ (if mode = .editing ∧ queryEmpty = false then [.networkRoundTrip] else [])
      ++ [.lockRelease]
  else
    match ev.code with
    | .char _ => [.lockAcquire, .stateAccess, .lockRelease]
    | .esc => [.lockAcquire, .stateAccess, .lockRelease]
    | .backspace => [.lockAcquire, .stateAccess, .lockRelease]
    | _ => []

/-- Does a network round-trip happen while at least one lock is held?
`d` counts currently held locks. -/
def networkWhileLocked : List PrimOp → Nat → Bool
  | [], _ => false
  | .lockAcquire :: rest, d => networkWhileLocked rest (d + 1)
  | .lockRelease :: rest, d => networkWhileLocked rest (d - 1)
  | .networkRoundTrip :: rest, d => decide (0 < d) || networkWhileLocked rest d
  | .stateAccess :: rest, d => networkWhileLocked rest d

/-! ## Command line entry (`main.rs` lines 108-128) -/

/-- `main.rs`: the first argument, when present, only seeds the query
string; otherwise the query starts empty. -/
def initial_query (args : List String) : String :=
  if args.length > 1 then args.getD 1 "" else ""

/-- What `main` does: there is a single code path - initialize the
terminal and run the interactive app. -/
inductive CliAction where
  | runInteractiveDashboard (initialQuery : String)
deriving DecidableEq, Repr

def main_action (args : List String) : CliAction :=
  .runInteractiveDashboard (initial_query args)

/-! ## Helper lemmas -/

@[simp] theorem except_bind_ok (a : α) (f : α → Except ε β) :
    (Except.ok a >>= f : Except ε β) = f a := rfl

@[simp] theorem except_bind_err (e : ε) (f : α → Except ε β) :
    (Except.error e >>= f : Except ε β) = .error e := rfl

@[simp] theorem except_pure (a : α) : (pure a : Except ε α) = .ok a := rfl

/-- Below index `i = 0` or with fewer than three characters left and a
total length of at most 3, the comma loop copies its input unchanged. -/
theorem commaChars_no_comma (cs : List Char) : ∀ (i len : Nat),
    len = i + cs.length → len ≤ 3 → commaChars len i cs = cs := by
  induction cs with
  | nil => intro i len _ _; rfl
  | cons c t ih =>
    intro i len hlen hle
    have hcond : ¬(0 < i ∧ (len - i) % 3 = 0) := by
      simp only [List.length_cons] at hlen
      omega
    simp only [commaChars, if_neg hcond, List.nil_append, List.cons.injEq, true_and]
    exact ih (i + 1) len (by simp only [List.length_cons] at hlen; omega) hle

/-- Exactly three characters remain and the running index is positive:
the loop emits one comma and then the three characters. -/
theorem commaChars_last3 (i : Nat) (a b c : Char) (hi : 0 < i) :
    commaChars (i + 3) i [a, b, c] = ',' :: [a, b, c] := by
  have h1 : 0 < i ∧ (i + 3 - i) % 3 = 0 := ⟨hi, by omega⟩
  have h2 : ¬(0 < i + 1 ∧ (i + 3 - (i + 1)) % 3 = 0) := by omega
  have h3 : ¬(0 < i + 1 + 1 ∧ (i + 3 - (i + 1 + 1)) % 3 = 0) := by omega
  simp only [commaChars, if_pos h1, if_neg h2, if_neg h3]
  rfl

/-- Splitting off the last three characters splits the comma loop. -/
theorem commaChars_split (t : List Char) : ∀ (i : Nat) (u : List Char),
    u.length = 3 → 0 < i + t.length →
    commaChars (i + t.length + 3) i (t ++ u) =
      commaChars (i + t.length) i t ++ ',' :: u := by
  induction t with
  | nil =>
    intro i u hu hi
    obtain ⟨a, b, c, rfl⟩ := List.length_eq_three.mp hu
    simp only [List.length_nil, Nat.add_zero] at hi ⊢
    simp only [List.nil_append]
    rw [commaChars_last3 i a b c hi]
    rfl
  | cons d t2 ih =>
    intro i u hu hi
    have hL : i + (d :: t2).length + 3 = (i + 1) + t2.length + 3 := by
      simp only [List.length_cons]; omega
    have hR : i + (d :: t2).length = (i + 1) + t2.length := by
      simp only [List.length_cons]; omega
    rw [hL, hR]
    simp only [List.cons_append, commaChars, List.append_eq]
    rw [ih (i + 1) u hu (by omega)]
    by_cases hP : 0 < i ∧ ((i + 1) + t2.length - i) % 3 = 0
    · rw [if_pos hP, if_pos (show 0 < i ∧ ((i + 1) + t2.length + 3 - i) % 3 = 0 by omega)]
      simp
    · rw [if_neg hP, if_neg (show ¬(0 < i ∧ ((i + 1) + t2.length + 3 - i) % 3 = 0) by omega)]
      simp

/-- The index-based comma loop of `format_longnumber` computes exactly the
right-to-left grouping in threes. -/
theorem commaChars_eq_groupThrees : ∀ (n : Nat) (cs : List Char), cs.length ≤ n →
    commaChars cs.length 0 cs = groupThrees cs := by
  intro n
  induction n with
  | zero =>
    intro cs h
    have hnil : cs = [] := List.length_eq_zero.mp (Nat.le_zero.mp h)
    subst hnil
    rw [groupThrees.eq_def]
    rfl
  | succ n ih =>
    intro cs h
    by_cases h3 : cs.length ≤ 3
    · rw [commaChars_no_comma cs 0 cs.length (by omega) h3]
      rw [groupThrees.eq_def, dif_pos h3]
    · have htake : (cs.take (cs.length - 3)).length = cs.length - 3 := by
        simp [List.length_take]
      have hdrop : (cs.drop (cs.length - 3)).length = 3 := by
        simp [List.length_drop]; omega
      have hsp := commaChars_split (cs.take (cs.length - 3)) 0 (cs.drop (cs.length - 3))
        hdrop (by rw [htake]; omega)
      rw [List.take_append_drop] at hsp
      rw [htake] at hsp
      have hlen : 0 + (cs.length - 3) + 3 = cs.length := by omega
      rw [hlen] at hsp
      have h0 : (0 : Nat) + (cs.length - 3) = (cs.take (cs.length - 3)).length := by
        rw [htake]; omega
      rw [h0] at hsp
      rw [hsp, ih (cs.take (cs.length - 3)) (by rw [htake]; omega)]
      conv_rhs => rw [groupThrees.eq_def]
      rw [dif_neg h3]

/-! ## Claim C1: dashboard partial-failure independence -/

def c1SupplyBody : Json :=
  .obj [("result", .obj [("value", .obj [("total", .num 5), ("circulating", .num 3)])])]

def c1TxBody : Json := .obj [("result", .num 9)]

/-- C1 counterexample: a transport failure (`send().await?`) of the very
first call, `getSlot`, aborts `fetch_initial_blockchain_data` before
`getSupply` and `getTransactionCount` ever run, so the other two fields
stay absent even though their calls would have succeeded — refuting that
one failing call never aborts the other two. -/
theorem c1_transport_failure_not_independent :
    ((fetch_initial_blockchain_data App.default .sendErr (.ok c1SupplyBody)
        (.ok c1TxBody)).1.supply_info).isSome = false ∧
    ((fetch_initial_blockchain_data App.default .sendErr (.ok c1SupplyBody)
        (.ok c1TxBody)).1.transaction_info).isSome = false ∧
    (fetch_initial_blockchain_data App.default .sendErr (.ok c1SupplyBody)
        (.ok c1TxBody)).2 = false :=
  ⟨rfl, rfl, rfl⟩

/-- C1 amended: when every call ends in a non-2xx HTTP status or a decoded
body (no transport or JSON-decode failure), the three dashboard fields are
populated independently, each determined only by its own call's outcome. -/
theorem c1_dashboard_httpfail_independence (st : App) (r1 r2 r3 : RpcOutcome)
    (h1 : NonAbort r1) (h2 : NonAbort r2) (h3 : NonAbort r3) :
    (fetch_initial_blockchain_data st r1 r2 r3).2 = true ∧
    (fetch_initial_blockchain_data st r1 r2 r3).1.slot_info = i64Field st.slot_info r1 ∧
    (fetch_initial_blockchain_data st r1 r2 r3).1.supply_info = supplyField st.supply_info r2 ∧
    (fetch_initial_blockchain_data st r1 r2 r3).1.transaction_info
      = i64Field st.transaction_info r3 := by
  cases r1 <;> cases r2 <;> cases r3 <;>
    simp_all [NonAbort, fetch_initial_blockchain_data, callStep, i64Field, supplyField]

/-- C1 witness: `getSlot` failing with an HTTP error leaves only the slot
field absent; supply and transaction count are still populated. -/
theorem c1_dashboard_httpfail_independence_witness :
    (fetch_initial_blockchain_data App.default .httpFail (.ok c1SupplyBody) (.ok c1TxBody)).2 = true ∧
    (fetch_initial_blockchain_data App.default .httpFail (.ok c1SupplyBody)
        (.ok c1TxBody)).1.slot_info = i64Field App.default.slot_info .httpFail ∧
    (fetch_initial_blockchain_data App.default .httpFail (.ok c1SupplyBody)
        (.ok c1TxBody)).1.supply_info = supplyField App.default.supply_info (.ok c1SupplyBody) ∧
    (fetch_initial_blockchain_data App.default .httpFail (.ok c1SupplyBody)
        (.ok c1TxBody)).1.transaction_info = i64Field App.default.transaction_info (.ok c1TxBody) :=
  c1_dashboard_httpfail_independence App.default .httpFail (.ok c1SupplyBody) (.ok c1TxBody)
    trivial trivial trivial

/-! ## Claim C2: character keys in Editing mode -/

def c2State : App := { App.default with input_mode := .editing, query := "ab" }

/-- C2 counterexample: in Editing mode the character key `'q'` does not
append to the query buffer — it quits (the `'q'` arm precedes the generic
character arm and ignores the input mode). -/
theorem c2_editing_q_does_not_append :
    ¬(((handle_key c2State { code := .char 'q', ctrl := false } none).1.query
         = c2State.query.push 'q')
      ∧ (handle_key c2State { code := .char 'q', ctrl := false } none).1.exit
         = c2State.exit) := by
  decide

/-- C2 amended: in Editing mode a character key other than `'q'`, `'e'`,
`'n'`, `'?'` (with no Ctrl modifier) appends exactly that character to the
query buffer and changes nothing else; `'q'` quits, `'e'` is ignored,
`'n'` toggles the network and `'?'` toggles the popup instead. -/
theorem c2_editing_plain_chars_append (st : App) (c : Char) (clip : Option String)
    (hm : st.input_mode = .editing)
    (hq : c ≠ 'q') (he : c ≠ 'e') (hn : c ≠ 'n') (hh : c ≠ '?') :
    handle_key st { code := .char c, ctrl := false } clip
      = ({ st with query := st.query.push c }, false) := by
  by_cases hv : c = 'v'
  · subst hv
    simp [handle_key, hm]
  · simp [handle_key, hm, hq, he, hn, hh, hv]

/-- C2 witness: `'x'` in Editing mode appends to the buffer. -/
theorem c2_editing_plain_chars_append_witness :
    handle_key c2State { code := .char 'x', ctrl := false } none
      = ({ c2State with query := c2State.query.push 'x' }, false) :=
  c2_editing_plain_chars_append c2State 'x' none rfl
    (by decide) (by decide) (by decide) (by decide)

/-! ## Claim C3: network toggle vs. submission endpoint -/

/-- The state after the user has toggled to Testnet and typed a valid
account address. -/
def c3State : App :=
  { App.default with
    current_rpc_network := .testnet
    query := "11111111111111111111111111111111" }

/-- C3 (code bug): `toggle_rpc_network` does switch the selected network,
but `fetch_data` builds its `RpcClient` from the constant `DEVNET_RPC`
(app.rs line 352), so a submission after toggling to Testnet still goes to
the Devnet endpoint. -/
theorem c3_submission_url_ignores_toggle :
    toggle_rpc_network .devnet = .testnet ∧
    (fetch_data c3State
      { account := .err, signatures := .err, transaction := .err }).2.url = DEVNET_RPC ∧
    RpcNetwork.testnet.get_url ≠ DEVNET_RPC := by
  refine ⟨rfl, rfl, ?_⟩
  decide

/-! ## Claim C4: classification by structured parsing -/

/-- C4 counterexample: `api.rs::fetch_data` picks the RPC method by string
length alone — `"abc"` parses as neither form (the interactive classifier
reports it invalid), yet the api helper treats it as a transaction lookup;
and 44 copies of `'0'` (not base58) are treated as an account lookup. -/
theorem c4_api_method_by_length_alone :
    api_method "abc" = "getTransaction" ∧ classify "abc" = .invalid ∧
    api_method (String.mk (List.replicate 44 '0')) = "getAccountInfo" ∧
    classify (String.mk (List.replicate 44 '0')) = .invalid := by
  refine ⟨rfl, by decide, rfl, by decide⟩

/-- C4 amended: the interactive submission path (`app.rs::fetch_data`)
classifies by attempting the structured pubkey parse and then the
structured signature parse, and fails closed: a string that parses as
neither is classified invalid. -/
theorem c4_classify_fails_closed (s : String)
    (hp : pubkeyOk s = false) (hs : signatureOk s = false) :
    classify s = .invalid := by
  simp [classify, hp, hs]

/-- C4 witness: a string with characters outside the base58 alphabet is
classified invalid. -/
theorem c4_classify_fails_closed_witness :
    pubkeyOk "not-base58!" = false ∧ signatureOk "not-base58!" = false ∧
    classify "not-base58!" = .invalid :=
  ⟨by decide, by decide, c4_classify_fails_closed "not-base58!" (by decide) (by decide)⟩

/-! ## Claim C5: the not-found display -/

def c5Query : String := "11111111111111111111111111111111"

/-- The pending-shaped state: query entered, no response installed yet. -/
def c5PendingState : App := { App.default with query := c5Query }

/-- The state after `fetch_data` on a well-formed address for which the
client reports no such account (`get_account` returns `Err`). -/
def c5NotFoundState : App :=
  (fetch_data c5PendingState
    { account := .err, signatures := .err, transaction := .err }).1

/-- C5 counterexample: after the RPC reports no such entity, the rendered
table is the single `"Loading..."` row — exactly what the pending state
renders — so there is no distinct `NotFound` display at all. -/
theorem c5_notfound_renders_loading_row :
    render_rows c5NotFoundState = .ok [[Cell.text "Status:", Cell.text "Loading..."]] ∧
    render_rows c5NotFoundState = render_rows c5PendingState :=
  ⟨rfl, rfl⟩

/-- C5 amended: for a well-formed (address) query whose account fetch
fails, `fetch_data` clears `json_response` and `address_sign` to `None`
and the table renders the single loading row, identical to the Pending
display; no distinct not-found variant exists. -/
theorem c5_account_err_renders_like_pending (st : App) (o : RpcOracle)
    (hq : pubkeyOk st.query = true) (hne : st.query ≠ "") (ha : o.account = .err) :
    (fetch_data st o).1.json_response = none ∧
    (fetch_data st o).1.address_sign = none ∧
    render_rows (fetch_data st o).1 = .ok [[Cell.text "Status:", Cell.text "Loading..."]] := by
  simp [fetch_data, hq, ha, render_rows, hne]

/-- C5 witness: the system-program address with an erring account fetch. -/
theorem c5_account_err_renders_like_pending_witness :
    (fetch_data c5PendingState
        { account := .err, signatures := .err, transaction := .err }).1.json_response = none ∧
    (fetch_data c5PendingState
        { account := .err, signatures := .err, transaction := .err }).1.address_sign = none ∧
    render_rows (fetch_data c5PendingState
        { account := .err, signatures := .err, transaction := .err }).1
      = .ok [[Cell.text "Status:", Cell.text "Loading..."]] :=
  c5_account_err_renders_like_pending c5PendingState
    { account := .err, signatures := .err, transaction := .err }
    (by decide) (by decide) rfl

/-! ## Claim C6: lock scope and network round-trips -/

/-- C6 counterexample: the Enter arm of `handle_events` (Editing mode,
non-empty query) performs the `fetch_data` network round-trip while the
shared-state lock is held. -/
theorem c6_enter_holds_lock_across_network :
    networkWhileLocked (handlerOps .editing false { code := .enter, ctrl := false }) 0 = true := by
  decide

/-- C6 amended: a network round-trip happens under the shared-state lock
exactly on the Enter submission arm (Editing mode, non-empty query); every
other key arm holds the lock only for its state update.  The claim's
"never" therefore fails precisely on query submission, during which the
draw/event loop cannot take the lock. -/
theorem c6_network_under_lock_exactly_on_submit (mode : InputMode) (queryEmpty : Bool)
    (ev : KeyEvent) :
    networkWhileLocked (handlerOps mode queryEmpty ev) 0
      = (ev.code == .enter && mode == .editing && !queryEmpty) := by
  cases hev : ev.code <;> cases mode <;> cases queryEmpty <;>
    simp [handlerOps, networkWhileLocked, hev]

/-- C6 witness: the `'q'` arm touches state under the lock but performs no
network call there. -/
theorem c6_network_under_lock_exactly_on_submit_witness :
    networkWhileLocked (handlerOps .normal true { code := .char 'q', ctrl := false }) 0
      = (KeyCode.char 'q' == KeyCode.enter && InputMode.normal == InputMode.editing && !true) :=
  c6_network_under_lock_exactly_on_submit .normal true { code := .char 'q', ctrl := false }

/-! ## Claim C7: one-argument invocation -/

def oneShotSig : String := String.mk (List.replicate 64 '1')

/-- C7 counterexample: invoked with one argument that is a valid
transaction signature, `main` still launches the interactive dashboard,
merely seeding the query string — there is no one-shot status-check path. -/
theorem c7_one_arg_launches_dashboard :
    signatureOk oneShotSig = true ∧
    main_action ["soonscan", oneShotSig] = .runInteractiveDashboard oneShotSig := by
  refine ⟨by decide, by decide⟩

/-- C7 amended: with at least one argument the program stores the first
argument as the initial query string and launches the interactive
dashboard; no status is printed and no early exit occurs. -/
theorem c7_arg_seeds_query_only (prog a : String) (rest : List String) :
    main_action (prog :: a :: rest) = .runInteractiveDashboard a := by
  have h : (prog :: a :: rest).length > 1 := by
    simp [List.length_cons]
  simp [main_action, initial_query, h]

/-- C7 witness. -/
theorem c7_arg_seeds_query_only_witness :
    main_action ["soonscan", "abc"] = .runInteractiveDashboard "abc" :=
  c7_arg_seeds_query_only "soonscan" "abc" []

/-! ## Claim C8: dependent signatures fetch -/

/-- C8: for an address query, `get_signatures_for_address` is attempted
exactly when `get_account` succeeded, and a failing signatures fetch
leaves the installed account response in place, only omitting the
signatures list. -/
theorem c8_signatures_dependent_fetch (st : App) (o : RpcOracle)
    (hq : pubkeyOk st.query = true) :
    ((fetch_data st o).2.get_signatures = true ↔ ∃ a, o.account = .ok a) ∧
    (∀ a : Account, o.account = .ok a → o.signatures = .err →
      (fetch_data st o).1.json_response = some (accountJson a) ∧
      (fetch_data st o).1.address_sign = none) := by
  cases ha : o.account with
  | ok a => cases hs : o.signatures <;> simp [fetch_data, hq, ha, hs]
  | err => simp [fetch_data, hq, ha]

def c8State : App := { App.default with query := "11111111111111111111111111111111" }

def c8Oracle : RpcOracle :=
  { account := .ok { lamports := 1500000000, owner := "own", dataLen := 0, executable := false }
    signatures := .err
    transaction := .err }

/-- C8 witness: account fetched, signatures fetch fails. -/
theorem c8_signatures_dependent_fetch_witness :
    ((fetch_data c8State c8Oracle).2.get_signatures = true ↔ ∃ a, c8Oracle.account = .ok a) ∧
    (∀ a : Account, c8Oracle.account = .ok a → c8Oracle.signatures = .err →
      (fetch_data c8State c8Oracle).1.json_response = some (accountJson a) ∧
      (fetch_data c8State c8Oracle).1.address_sign = none) :=
  c8_signatures_dependent_fetch c8State c8Oracle (by decide)

/-! ## Claim C9: thousands grouping -/

/-- C9 counterexample: at `i64::MIN` the source computes no absolute
value - `number.abs()` panics in a debug build and wraps in a release
build, where `to_string` keeps its minus sign and the final negative
branch prepends a second one - so the formatter does not preserve a
single leading minus sign for every negative input. -/
theorem c9_min_abs_overflow_double_minus :
    format_longnumber (-9223372036854775808) = "--9,223,372,036,854,775,808" ∧
    format_longnumber (-9223372036854775808) ≠ "-9,223,372,036,854,775,808" := by
  refine ⟨by decide, by decide⟩

/-- C9 amended: for every i64 input except `i64::MIN` (where `abs`
overflows), `format_longnumber` produces the right-to-left grouping in
threes of the decimal digits of the absolute value, prefixed with a
single minus sign exactly for negative inputs; in particular `1234567`
formats as `"1,234,567"` and `-42` as `"-42"`. -/
theorem c9_format_longnumber_groups :
    format_longnumber 1234567 = "1,234,567" ∧
    format_longnumber (-42) = "-42" ∧
    ∀ n : Int, -9223372036854775808 < n → n < 9223372036854775808 →
      format_longnumber n
        = (if n < 0 then "-" else "") ++ String.mk (groupThrees (toString n.natAbs).toList) := by
  refine ⟨by decide, by decide, ?_⟩
  intro n hlo _hhi
  have habs : i64Abs n = (n.natAbs : Int) := by
    rw [i64Abs, if_neg (by omega)]
  simp only [format_longnumber, habs]
  rw [show toString ((n.natAbs : Nat) : Int) = toString n.natAbs from rfl]
  rw [show (toString n.natAbs).length = (toString n.natAbs).toList.length from rfl,
    commaChars_eq_groupThrees (toString n.natAbs).toList.length (toString n.natAbs).toList
      (le_refl _)]
  by_cases hneg : n < 0
  · rw [if_pos hneg, if_pos hneg]
  · rw [if_neg hneg, if_neg hneg]
    rfl

/-- C9 witness: a negative in-range input gets a single minus and
three-grouping. -/
theorem c9_format_longnumber_groups_witness :
    format_longnumber (-7654321)
      = (if (-7654321 : Int) < 0 then "-" else "")
        ++ String.mk (groupThrees (toString (-7654321 : Int).natAbs).toList) :=
  c9_format_longnumber_groups.2.2 (-7654321) (by decide) (by decide)

/-! ## Claim C10: history rows slice the signature string -/

/-- C10: a history entry whose `signature` field is missing falls back to
the 3-byte string `"N/A"`; any signature string shorter than 23 bytes
makes the `&signature[0..23]` slice of the row renderer out of range, and
the whole account render panics. -/
theorem c10_signature_slice (st : App) (a : Account) (entry : Json)
    (hne : st.query ≠ "")
    (hj : st.json_response = some (accountJson a))
    (hs : st.address_sign = some (.arr [entry]))
    (hshort : (sigStringOf entry).length < 23) :
    (entry.get "signature" = none → sigStringOf entry = "N/A") ∧
    sigHistoryRow entry = .error .sliceOutOfRange ∧
    render_rows st = .error .sliceOutOfRange := by
  have hrow : sigHistoryRow entry = .error .sliceOutOfRange := by
    simp only [sigHistoryRow]
    rw [if_pos hshort]
  refine ⟨?_, hrow, ?_⟩
  · intro hnone
    simp [sigStringOf, hnone]
  · simp only [render_rows, hj, hs]
    rw [if_neg hne]
    simp [accountJson, historyRows, hs, Json.get, List.lookup, List.mapM, List.mapM.loop, hrow]

def c10Account : Account := { lamports := 5, owner := "own", dataLen := 1, executable := false }

def c10State : App :=
  { App.default with
    query := "x"
    json_response := some (accountJson c10Account)
    address_sign := some (.arr [Json.obj []]) }

/-- C10 witness: an entry with no `signature` field at all. -/
theorem c10_signature_slice_witness :
    (Json.get (Json.obj []) "signature" = none → sigStringOf (Json.obj []) = "N/A") ∧
    sigHistoryRow (Json.obj []) = .error .sliceOutOfRange ∧
    render_rows c10State = .error .sliceOutOfRange :=
  c10_signature_slice c10State c10Account (Json.obj []) (by decide) rfl rfl (by decide)

end Soonscan
